import Mathlib

/-!
Shallow embedding of the `quant_dev` repository: a price-time-priority limit
order book (`order_book.cpp` / its header), a single-threaded task scheduler
(`TaskScheduler`), and a recycling resource pool (`resource_pool.h`).

Modelling conventions:
* C++ `int` arithmetic is modelled by `Int` (no operation here approaches the
  32-bit range at the inputs considered).
* `std::unordered_map<int, V>` is modelled by an association list
  `List (Int × V)` whose lookup returns the first binding; `erase` drops the
  binding, `insert_or_assign` rebinds, `try_emplace` inserts only when absent.
* `std::list<LimitOrder>` nodes are tagged with a globally unique allocation
  number (`Nat`); a stored `std::list::iterator` is modelled by that tag, and
  dereferencing an iterator is modelled by searching every level for a node
  with the tag.  A dangling iterator (node already erased) yields `none`,
  modelling the undefined behaviour of dereferencing an invalidated iterator.
* The single `double` quantity, `average_price`, is modelled by `Option ℚ`:
  `divQ a b = none` when `b = 0` (IEEE division by zero: NaN/Inf, not a real
  number), otherwise the exact rational quotient.
* Functions that can only terminate by C++ undefined behaviour (throwing
  `std::out_of_range` from `unordered_map::at`, dereferencing a dangling
  iterator) return `Option`, with `none` for the crash.
-/

/-- Exact model of `static_cast<double>(num) / den`: `none` stands for the
non-real IEEE results (NaN or ±Inf) produced when `den = 0`. -/
def divQ (num den : Int) : Option ℚ :=
  if den = 0 then none else some ((num : ℚ) / (den : ℚ))

/-- Lookup in an association list modelling `std::unordered_map<int, ·>`. -/
def lookupA {α : Type} : List (Int × α) → Int → Option α
  | [], _ => none
  | (k, v) :: rest, key => if k = key then some v else lookupA rest key

/-- Model of `unordered_map::erase(key)`. -/
def eraseA {α : Type} (m : List (Int × α)) (k : Int) : List (Int × α) :=
  m.filter (fun p => p.1 != k)

/-- Model of `unordered_map::insert_or_assign(key, value)`. -/
def insertA {α : Type} (m : List (Int × α)) (k : Int) (v : α) : List (Int × α) :=
  (k, v) :: eraseA m k

/-- Model of `unordered_map::try_emplace(key, value)`: inserts only when the
key is absent. -/
def tryEmplaceA {α : Type} (m : List (Int × α)) (k : Int) (v : α) : List (Int × α) :=
  if (lookupA m k).isSome then m else (k, v) :: m

/-- Lookup by node tag in a level's order list. -/
def lookupTag {α : Type} : List (Nat × α) → Nat → Option α
  | [], _ => none
  | (k, v) :: rest, key => if k = key then some v else lookupTag rest key

theorem lookupA_eraseA_self {α : Type} (m : List (Int × α)) (k : Int) :
    lookupA (eraseA m k) k = none := by
  induction m with
  | nil => rfl
  | cons p rest ih =>
    rcases p with ⟨a, v⟩
    by_cases h : a = k
    · simpa [eraseA, List.filter_cons, h] using ih
    · simpa [eraseA, List.filter_cons, h, lookupA] using ih

theorem lookupA_eraseA_ne {α : Type} (m : List (Int × α)) (k k' : Int) (h : k' ≠ k) :
    lookupA (eraseA m k) k' = lookupA m k' := by
  induction m with
  | nil => rfl
  | cons p rest ih =>
    rcases p with ⟨a, v⟩
    by_cases ha : a = k
    · subst ha
      simpa [eraseA, List.filter_cons, lookupA, Ne.symm h] using ih
    · by_cases hk : a = k'
      · simp [eraseA, List.filter_cons, ha, lookupA, hk, h]
      · simpa [eraseA, List.filter_cons, ha, lookupA, hk] using ih

theorem lookupA_insertA_self {α : Type} (m : List (Int × α)) (k : Int) (v : α) :
    lookupA (insertA m k v) k = some v := by
  simp [insertA, lookupA]

theorem lookupA_insertA_ne {α : Type} (m : List (Int × α)) (k k' : Int) (v : α) (h : k' ≠ k) :
    lookupA (insertA m k v) k' = lookupA m k' := by
  rw [insertA, show lookupA ((k, v) :: eraseA m k) k'
      = lookupA (eraseA m k) k' by simp [lookupA, Ne.symm h]]
  exact lookupA_eraseA_ne m k k' h

/-! ## Order book data model (order_book.h) -/

/-- Public struct `OrderState` with its C++ member initializers:
`filledSize{-1}` marks the invalid/unknown sentinel, `averagePrice{0.0}`. -/
structure OrderState where
  filledSize : Int := -1
  averagePrice : Option ℚ := some 0
deriving DecidableEq, Repr

/-- Private struct `LimitOrder`. -/
structure LimitOrder where
  price : Int := 0
  originalSize : Int := 0
  remainingSize : Int := 0
  filledValue : Int := 0
deriving DecidableEq, Repr

/-- Private struct `OrderLevel`.  The FIFO `std::list<LimitOrder>` is a list of
tagged nodes; the front of the list is `begin()`. -/
structure OrderLevel where
  orders : List (Nat × LimitOrder) := []
  totalSize : Int := 0
  nextIdx : Int := -1
  prevIdx : Int := -1
deriving DecidableEq, Repr

/-- The `OrderBook` members.  `nextTag` is the model's allocation counter for
`std::list` nodes (C++ node identity); it is not observable program state. -/
structure OrderBook where
  maxP : Int
  incr : Int
  nextOrderId : Int := 1
  orderLevels : List OrderLevel := []
  firstBidIdx : Int := -1
  lastBidIdx : Int := -1
  firstOfferIdx : Int := -1
  lastOfferIdx : Int := -1
  activeOrderMap : List (Int × Nat) := []
  doneOrderMap : List (Int × OrderState) := []
  nextTag : Nat := 0
deriving DecidableEq, Repr

/-- The `OrderBook(maxPrice, increment)` constructor: `orderLevels` is resized
to `maxPrice / increment + 1` value-initialized levels.  (The constructor
throws when `maxPrice % increment != 0`; it is only used with valid
configurations here.) -/
def OrderBook.init (maxPrice increment : Int) : OrderBook :=
  { maxP := maxPrice, incr := increment,
    orderLevels := List.replicate (maxPrice / increment + 1).toNat {} }

/-- Read `orderLevels[i]`. -/
def OrderBook.level (b : OrderBook) (i : Int) : OrderLevel :=
  b.orderLevels.getD i.toNat {}

/-- Write `orderLevels[i]` through an update function. -/
def OrderBook.modifyLevel (b : OrderBook) (i : Int) (f : OrderLevel → OrderLevel) : OrderBook :=
  { b with orderLevels := b.orderLevels.set i.toNat (f (b.level i)) }

/-- Inline member `getIsOrderValid`. -/
def OrderBook.getIsOrderValid (b : OrderBook) (price orderSize : Int) : Bool :=
  price ≥ 0 && price ≤ b.maxP && price % b.incr = 0 && orderSize > 0

/-- Inline member `getIsBid`: an existing level is a bid level iff its index
is at most `lastBidIdx`. -/
def OrderBook.getIsBid (b : OrderBook) (currIdx : Int) : Bool :=
  currIdx ≤ b.lastBidIdx

/-- Model of dereferencing a stored `std::list<LimitOrder>::iterator`: find
the node with this tag in some level's FIFO.  `none` models the undefined
behaviour of dereferencing an invalidated (erased) iterator. -/
def OrderBook.derefTag (b : OrderBook) (tag : Nat) : Option LimitOrder :=
  b.orderLevels.findSome? (fun lvl => lookupTag lvl.orders tag)

/-- Overwrite the node carrying `tag`, wherever it lives (C++: assignment
through the dereferenced iterator). -/
def OrderBook.setNode (b : OrderBook) (tag : Nat) (o : LimitOrder) : OrderBook :=
  { b with orderLevels := b.orderLevels.map (fun lvl =>
      { lvl with orders := lvl.orders.map (fun p => if p.1 = tag then (tag, o) else p) }) }

/-- Result of the fill loop inside `fillOrdersAtCurrIdx`: the level's
remaining FIFO, the aggressive order's remaining size, the level's
`totalSize`, and the two order maps after the fills. -/
structure FillResult where
  orders : List (Nat × LimitOrder)
  orderSize : Int
  totalSize : Int
  activeOrderMap : List (Int × Nat)
  doneOrderMap : List (Int × OrderState)

/-- The `while` loop of `OrderBook::fillOrdersAtCurrIdx` (order_book.cpp
lines 176-195), including the trailing `erase(begin, currOrderIt)`: fully
filled nodes are dropped as the loop advances past them.  A completely filled
resting order is erased from the active map and inserted into the done map
under the key `currIdx` — the price-level index, exactly as the source writes
it (`activeOrderMap.erase(currIdx); doneOrderMap.try_emplace(currIdx, ...)`). -/
def OrderBook.fillLoop (incr currIdx : Int) :
    List (Nat × LimitOrder) → Int → Int → List (Int × Nat) → List (Int × OrderState) →
    FillResult
  | [], orderSize, totalSize, am, dm => ⟨[], orderSize, totalSize, am, dm⟩
  | (tag, o) :: rest, orderSize, totalSize, am, dm =>
    if orderSize ≤ 0 then ⟨(tag, o) :: rest, orderSize, totalSize, am, dm⟩
    else
      let qtyFilled := min orderSize o.remainingSize
      let o' : LimitOrder := { o with remainingSize := o.remainingSize - qtyFilled,
                                      filledValue := o.filledValue + qtyFilled * currIdx * incr }
      if o'.remainingSize = 0 then
        OrderBook.fillLoop incr currIdx rest (orderSize - qtyFilled) (totalSize - qtyFilled)
          (eraseA am currIdx)
          (tryEmplaceA dm currIdx ⟨o'.originalSize, divQ o'.filledValue o'.originalSize⟩)
      else
        ⟨(tag, o') :: rest, orderSize - qtyFilled, totalSize - qtyFilled, am, dm⟩

/-- `OrderBook::fillOrdersAtCurrIdx`: fill the level at `currIdx` up to
`orderSize`; return `(next index to check, remaining size)` — the level's
`prevIdx` when the level was exhausted — together with the mutated book. -/
def OrderBook.fillOrdersAtCurrIdx (b : OrderBook) (currIdx orderSize : Int) :
    (Int × Int) × OrderBook :=
  let lvl := b.level currIdx
  let r := OrderBook.fillLoop b.incr currIdx lvl.orders orderSize lvl.totalSize
      b.activeOrderMap b.doneOrderMap
  let b' := { b.modifyLevel currIdx (fun l => { l with orders := r.orders, totalSize := r.totalSize }) with
              activeOrderMap := r.activeOrderMap, doneOrderMap := r.doneOrderMap }
  if r.totalSize = 0 then ((lvl.prevIdx, r.orderSize), b')
  else ((currIdx, r.orderSize), b')

/-- Result of a crossing loop in `addOrder`: the opposite side's cursor, the
incoming order's remaining size, the accumulated `filledValue`, and the book. -/
structure CrossResult where
  currIdx : Int
  orderSize : Int
  filledValue : Int
  book : OrderBook

/-- The bid-side crossing loop of `addOrder` (order_book.cpp lines 24-31):
`while (currOfferIdx >= 0 && currOfferIdx <= newIdx && orderSize > 0)`.
The fuel argument only bounds the walk over the finitely many levels; it is
never exhausted on a well-formed book. -/
def OrderBook.crossBidLoop : Nat → OrderBook → Int → Int → Int → Int → CrossResult
  | 0, b, currOfferIdx, _, orderSize, filledValue => ⟨currOfferIdx, orderSize, filledValue, b⟩
  | Nat.succ fuel, b, currOfferIdx, newIdx, orderSize, filledValue =>
    if currOfferIdx ≥ 0 ∧ currOfferIdx ≤ newIdx ∧ orderSize > 0 then
      let r := b.fillOrdersAtCurrIdx currOfferIdx orderSize
      OrderBook.crossBidLoop fuel r.2 r.1.1 newIdx r.1.2
        (filledValue + (orderSize - r.1.2) * currOfferIdx * b.incr)
    else ⟨currOfferIdx, orderSize, filledValue, b⟩

/-- The offer-side crossing loop of `addOrder` (order_book.cpp lines 37-44):
`while (currBidIdx >= 0 && currBidIdx >= newIdx && orderSize > 0)`. -/
def OrderBook.crossOfferLoop : Nat → OrderBook → Int → Int → Int → Int → CrossResult
  | 0, b, currBidIdx, _, orderSize, filledValue => ⟨currBidIdx, orderSize, filledValue, b⟩
  | Nat.succ fuel, b, currBidIdx, newIdx, orderSize, filledValue =>
    if currBidIdx ≥ 0 ∧ currBidIdx ≥ newIdx ∧ orderSize > 0 then
      let r := b.fillOrdersAtCurrIdx currBidIdx orderSize
      OrderBook.crossOfferLoop fuel r.2 r.1.1 newIdx r.1.2
        (filledValue + (orderSize - r.1.2) * currBidIdx * b.incr)
    else ⟨currBidIdx, orderSize, filledValue, b⟩

/-- The `while (currBidIdx > newIdx)` walk in the middle case of
`addNewOrderLevel` for bids. -/
def OrderBook.walkBid : Nat → OrderBook → Int → Int → Int
  | 0, _, curr, _ => curr
  | Nat.succ fuel, b, curr, newIdx =>
    if curr > newIdx then OrderBook.walkBid fuel b (b.level curr).prevIdx newIdx else curr

/-- The `while (currOfferIdx < newIdx)` walk in the middle case of
`addNewOrderLevel` for offers. -/
def OrderBook.walkOffer : Nat → OrderBook → Int → Int → Int
  | 0, _, curr, _ => curr
  | Nat.succ fuel, b, curr, newIdx =>
    if curr < newIdx then OrderBook.walkOffer fuel b (b.level curr).prevIdx newIdx else curr

/-- `OrderBook::addNewOrderLevel` (order_book.cpp lines 203-259). -/
def OrderBook.addNewOrderLevel (b : OrderBook) (newIdx : Int) (isBid : Bool) : OrderBook :=
  if isBid then
    if b.lastBidIdx < 0 then
      { b with lastBidIdx := newIdx, firstBidIdx := newIdx }
    else if b.lastBidIdx < newIdx then
      let b1 := b.modifyLevel newIdx (fun l => { l with prevIdx := b.lastBidIdx })
      let b2 := b1.modifyLevel b.lastBidIdx (fun l => { l with nextIdx := newIdx })
      { b2 with lastBidIdx := newIdx }
    else if b.firstBidIdx > newIdx then
      let b1 := b.modifyLevel newIdx (fun l => { l with nextIdx := b.firstBidIdx })
      let b2 := b1.modifyLevel b.firstBidIdx (fun l => { l with prevIdx := newIdx })
      { b2 with firstBidIdx := newIdx }
    else
      let currBidIdx := OrderBook.walkBid (b.orderLevels.length + 1) b b.lastBidIdx newIdx
      let nextBidIdx := (b.level currBidIdx).nextIdx
      let b1 := b.modifyLevel newIdx (fun l => { l with nextIdx := nextBidIdx, prevIdx := currBidIdx })
      let b2 := b1.modifyLevel currBidIdx (fun l => { l with nextIdx := newIdx })
      b2.modifyLevel nextBidIdx (fun l => { l with prevIdx := newIdx })
  else
    if b.lastOfferIdx < 0 then
      { b with lastOfferIdx := newIdx, firstOfferIdx := newIdx }
    else if b.lastOfferIdx > newIdx then
      let b1 := b.modifyLevel newIdx (fun l => { l with prevIdx := b.lastOfferIdx })
      let b2 := b1.modifyLevel b.lastOfferIdx (fun l => { l with nextIdx := newIdx })
      { b2 with lastOfferIdx := newIdx }
    else if b.firstOfferIdx < newIdx then
      let b1 := b.modifyLevel newIdx (fun l => { l with nextIdx := b.firstOfferIdx })
      let b2 := b1.modifyLevel b.firstOfferIdx (fun l => { l with prevIdx := newIdx })
      { b2 with firstOfferIdx := newIdx }
    else
      let currOfferIdx := OrderBook.walkOffer (b.orderLevels.length + 1) b b.lastOfferIdx newIdx
      let nextOfferIdx := (b.level currOfferIdx).nextIdx
      let b1 := b.modifyLevel newIdx (fun l => { l with nextIdx := nextOfferIdx, prevIdx := currOfferIdx })
      let b2 := b1.modifyLevel currOfferIdx (fun l => { l with nextIdx := newIdx })
      b2.modifyLevel nextOfferIdx (fun l => { l with prevIdx := newIdx })

/-- `OrderBook::removeOrderLevel` (order_book.cpp lines 261-292), verbatim
including the offer-branch assignment `firstBidIdx = nextIdx` on the
`prevIdx < 0` path (line 289 of the source). -/
def OrderBook.removeOrderLevel (b : OrderBook) (currIdx : Int) : OrderBook :=
  let isBid := b.getIsBid currIdx
  let nextIdx := (b.level currIdx).nextIdx
  let prevIdx := (b.level currIdx).prevIdx
  let b1 := if nextIdx ≥ 0 then b.modifyLevel nextIdx (fun l => { l with prevIdx := prevIdx }) else b
  let b2 := if prevIdx ≥ 0 then b1.modifyLevel prevIdx (fun l => { l with nextIdx := nextIdx }) else b1
  if isBid then
    let b3 := if nextIdx < 0 then { b2 with lastBidIdx := prevIdx } else b2
    if prevIdx < 0 then { b3 with firstBidIdx := nextIdx } else b3
  else
    let b3 := if nextIdx < 0 then { b2 with lastOfferIdx := prevIdx } else b2
    if prevIdx < 0 then { b3 with firstBidIdx := nextIdx } else b3

/-- `OrderBook::addOrder` (order_book.cpp lines 13-73). -/
def OrderBook.addOrder (b : OrderBook) (price orderSize : Int) (isBid : Bool) :
    (Bool × Int) × OrderBook :=
  if ¬ b.getIsOrderValid price orderSize then ((false, -1), b)
  else
    let originalSize := orderSize
    let newIdx := price / b.incr
    let fuel := b.orderLevels.length + 1
    let c : CrossResult :=
      if isBid then
        let r := OrderBook.crossBidLoop fuel b b.lastOfferIdx newIdx orderSize 0
        let bA := { r.book with lastOfferIdx := r.currIdx }
        let bB := if r.currIdx < 0 then { bA with firstOfferIdx := r.currIdx } else bA
        { r with book := bB }
      else
        let r := OrderBook.crossOfferLoop fuel b b.lastBidIdx newIdx orderSize 0
        let bA := { r.book with lastBidIdx := r.currIdx }
        let bB := if r.currIdx < 0 then { bA with firstBidIdx := r.currIdx } else bA
        { r with book := bB }
    if c.orderSize = 0 then
      let id := c.book.nextOrderId
      ((true, id),
       { c.book with
         doneOrderMap := tryEmplaceA c.book.doneOrderMap id
           ⟨originalSize, divQ c.filledValue originalSize⟩,
         nextOrderId := id + 1 })
    else
      let b1 := if (c.book.level newIdx).totalSize = 0 then c.book.addNewOrderLevel newIdx isBid
                else c.book
      let tag := b1.nextTag
      let b2 := b1.modifyLevel newIdx (fun l =>
        { l with orders := l.orders ++ [(tag, ⟨price, originalSize, c.orderSize, c.filledValue⟩)],
                 totalSize := l.totalSize + c.orderSize })
      let id := b2.nextOrderId
      ((true, id),
       { b2 with activeOrderMap := insertA b2.activeOrderMap id tag,
                 nextOrderId := id + 1, nextTag := tag + 1 })

/-- `OrderBook::getOrderStatus` (order_book.cpp lines 75-87).  `none` models
the undefined behaviour of dereferencing a dangling iterator stored in the
active map. -/
def OrderBook.getOrderStatus (b : OrderBook) (orderId : Int) : Option (Bool × OrderState) :=
  match lookupA b.activeOrderMap orderId with
  | some tag =>
    match b.derefTag tag with
    | none => none
    | some o =>
      let filledSize := o.originalSize - o.remainingSize
      some (true, ⟨filledSize, divQ o.filledValue filledSize⟩)
  | none =>
    match lookupA b.doneOrderMap orderId with
    | some st => some (false, st)
    | none => some (false, {})

/-- `OrderBook::cancelOrder` (order_book.cpp lines 89-106). -/
def OrderBook.cancelOrder (b : OrderBook) (orderId : Int) :
    Option ((Bool × OrderState) × OrderBook) :=
  match b.getOrderStatus orderId with
  | none => none
  | some (active, os) =>
    if ¬ active then some ((false, os), b)
    else
      match lookupA b.activeOrderMap orderId with
      | none => none
      | some tag =>
        match b.derefTag tag with
        | none => none
        | some o =>
          let currIdx := o.price / b.incr
          let b1 := b.modifyLevel currIdx (fun l =>
            { l with totalSize := l.totalSize - o.remainingSize,
                     orders := l.orders.filter (fun p => p.1 != tag) })
          let b2 := { b1 with activeOrderMap := eraseA b1.activeOrderMap orderId }
          let b3 := if (b2.level currIdx).totalSize = 0 then b2.removeOrderLevel currIdx else b2
          some ((true, os), b3)

/-- `OrderBook::updateOrder` (order_book.cpp lines 108-141).  `none` models a
crash: either undefined behaviour reached through `getOrderStatus`/
`cancelOrder`, or the `activeOrderMap.at(newOrderId)` throw on line 137 when
the re-added order was instantly fully filled and hence never entered the
active map. -/
def OrderBook.updateOrder (b : OrderBook) (orderId newPrice newSize : Int) :
    Option ((Bool × OrderState) × OrderBook) :=
  match b.getOrderStatus orderId with
  | none => none
  | some (active, os) =>
    if ¬ active then some ((false, os), b)
    else if b.getIsOrderValid newPrice newSize = false ∨ os.filledSize ≥ newSize then
      some ((false, os), b)
    else
      match lookupA b.activeOrderMap orderId with
      | none => none
      | some tag =>
        match b.derefTag tag with
        | none => none
        | some o =>
          if o.price = newPrice then
            let o' := { o with remainingSize := newSize - os.filledSize,
                               originalSize := newSize }
            some ((true, os), b.setNode tag o')
          else
            let currIdx := o.price / b.incr
            let orderSize := newSize - os.filledSize
            let isBid := b.getIsBid currIdx
            match b.cancelOrder orderId with
            | none => none
            | some (_, b1) =>
              let r := b1.addOrder newPrice orderSize isBid
              let newOrderId := r.1.2
              let b2 := r.2
              match lookupA b2.activeOrderMap newOrderId with
              | none => none
              | some newTag =>
                some ((true, os),
                  { b2 with activeOrderMap :=
                      eraseA (insertA b2.activeOrderMap orderId newTag) newOrderId })

/-! ## Task scheduler data model (TaskScheduler) -/

/-- Struct `Task`: `{task_id, start_time, running_time}`.  Instants and
durations are integers (milliseconds). -/
structure STask where
  task_id : Int
  start_time : Int
  running_time : Int
deriving DecidableEq, Repr

/-- The scheduler members guarded by `q_mutex`.  The `std::priority_queue`
(smallest `start_time` first, via `Task::operator<`) is modelled as a list
kept sorted by ascending `start_time`; its head is `top()`. -/
structure SchedState where
  next_task_id : Int := 1
  executed_tasks : List Int := []
  repeated_tasks : List (Int × Int) := []
  event_loop_running : Bool := true
  taskq : List STask := []
deriving DecidableEq, Repr

/-- Insertion into the priority queue (`taskq.emplace`): keep the list sorted
by ascending `start_time`; among equal start times the relative order is
implementation-defined in the source, here insertion after existing ties. -/
def sortedInsert : List STask → STask → List STask
  | [], t => [t]
  | u :: rest, t =>
    if t.start_time < u.start_time then t :: u :: rest else u :: sortedInsert rest t

/-- The linear scan of `deleteScheduled` (part_001 lines 118-137): pop
entries until one with the wanted id is on top, pop that one, push the rest
back.  On the sorted-list model this removes the earliest pending occurrence
and returns whether one was found. -/
def removeFirstTask : List STask → Int → Bool × List STask
  | [], _ => (false, [])
  | t :: rest, id =>
    if t.task_id = id then (true, rest)
    else
      let r := removeFirstTask rest id
      (r.1, t :: r.2)

/-- Number of pending occurrences of a task id. -/
def countId (q : List STask) (id : Int) : Nat :=
  (q.filter (fun t => t.task_id = id)).length

/-- `TaskScheduler::deleteScheduled` (part_001 lines 98-146): fail when the
loop has shut down; a repeated task is first removed from `repeated_tasks`
(`ok = true`); a non-repeated id already in `executed_tasks` is reported as
"already executed" and fails; otherwise the pending queue is scanned and the
matching entry removed; the result is `ok1 || found`. -/
def TaskScheduler.deleteScheduled (s : SchedState) (task_id : Int) : Bool × SchedState :=
  if s.event_loop_running = false then (false, s)
  else if (lookupA s.repeated_tasks task_id).isSome then
    (true, { s with repeated_tasks := eraseA s.repeated_tasks task_id,
                    taskq := (removeFirstTask s.taskq task_id).2 })
  else if s.executed_tasks.contains task_id then (false, s)
  else ((removeFirstTask s.taskq task_id).1,
        { s with taskq := (removeFirstTask s.taskq task_id).2 })

/-- The repeat re-enqueue step of `TaskScheduler::runEventLoop` (part_001
lines 210-219): after `t.run()` returns and the lock is re-acquired, the
repeated mapping is re-checked, and only when `t.task_id` is still present is
`(t.task_id, t.start_time + interval, t.running_time)` pushed back onto the
queue.  `s` is the scheduler state observed at that re-check, i.e. after any
admissions or cancellations that ran while the task body executed unlocked. -/
def TaskScheduler.afterTaskRun (s : SchedState) (t : STask) : SchedState :=
  match lookupA s.repeated_tasks t.task_id with
  | some interval =>
    { s with taskq := sortedInsert s.taskq ⟨t.task_id, t.start_time + interval, t.running_time⟩ }
  | none => s

/-! ## Resource pool data model (resource_pool.h) -/

/-- The state of a `ResourcePool<R>`.  Resources are identified by allocation
number: `idleQueue` is the FIFO `std::queue<RType*> pool` (head = `front()`),
`allocCount` counts every `R` the factory has materialised, and `managed`
records whether the pool object is currently owned by at least one
`shared_ptr` (so that `weak_from_this()` yields a non-expired weak pointer). -/
structure PoolState where
  idleQueue : List Nat := []
  allocCount : Nat := 0
  managed : Bool := true
deriving DecidableEq, Repr

/-- `ResourcePool::request` (resource_pool.h lines 142-153) together with the
`RDeleter` constructor's `assert(!p_ptr.expired())` (line 88): `none` models
the assertion failure when the pool is not shared_ptr-managed.  Otherwise the
head of a non-empty idle queue is detached, or the factory builds a fresh
resource. -/
def ResourcePool.request (p : PoolState) : Option (Nat × PoolState) :=
  if p.managed = false then none
  else
    match p.idleQueue with
    | [] => some (p.allocCount, { p with allocCount := p.allocCount + 1 })
    | r :: rest => some (r, { p with idleQueue := rest })

/-- `ResourcePool::recycle` (resource_pool.h lines 168-170), reached from
`RDeleter::operator()` when the weak pointer locks (the pool is alive):
`pool.push(...)` enqueues the released resource at the tail. -/
def ResourcePool.recycle (p : PoolState) (r : Nat) : PoolState :=
  { p with idleQueue := p.idleQueue ++ [r] }

/-! ## Auxiliary lemmas about the pending-queue scan -/

theorem removeFirstTask_found (q : List STask) (id : Int)
    (h : (removeFirstTask q id).1 = true) :
    countId (removeFirstTask q id).2 id + 1 = countId q id := by
  induction q with
  | nil => simp [removeFirstTask] at h
  | cons t rest ih =>
    by_cases ht : t.task_id = id
    · simp [removeFirstTask, ht, countId, List.filter_cons]
    · simp only [removeFirstTask, if_neg ht] at h ⊢
      simp only [countId, List.filter_cons, ht] at ih ⊢
      simpa [countId, ht] using ih h

theorem removeFirstTask_not_found (q : List STask) (id : Int)
    (h : (removeFirstTask q id).1 = false) :
    (removeFirstTask q id).2 = q := by
  induction q with
  | nil => rfl
  | cons t rest ih =>
    by_cases ht : t.task_id = id
    · simp [removeFirstTask, ht] at h
    · simp only [removeFirstTask, if_neg ht] at h ⊢
      simpa using ih h

/-! ## Concrete books used by the claim theorems

All are reached from `OrderBook.init 10 1` by `addOrder` calls, so every
state below is a genuine reachable program state. -/

/-- A fresh book with `maxPrice = 10`, `increment = 1`. -/
def bookEmpty : OrderBook := OrderBook.init 10 1

/-- After `addOrder(7, 5, offer)`: order id 1 rests at level 7. -/
def bookOffer7 : OrderBook := (bookEmpty.addOrder 7 5 false).2

/-- After additionally `addOrder(7, 5, bid)`: the bid (id 2) fully crosses
the resting offer (id 1). -/
def bookCrossed : OrderBook := (bookOffer7.addOrder 7 5 true).2

/-- After `addOrder(3, 5, bid)`: order id 1 rests at level 3. -/
def bookBid3 : OrderBook := (bookEmpty.addOrder 3 5 true).2

/-- After additionally `addOrder(7, 5, offer)`: order id 2 rests at level 7
without crossing (7 > 3). -/
def bookBid3Offer7 : OrderBook := (bookBid3.addOrder 7 5 false).2

/-- After `addOrder(7, 5, offer)` then `addOrder(3, 5, bid)`: both rest. -/
def bookOffer7Bid3 : OrderBook := (bookOffer7.addOrder 3 5 true).2

/-- After `addOrder(7, 5, bid)`: order id 1 rests at level 7, unfilled. -/
def bookBid7 : OrderBook := (bookEmpty.addOrder 7 5 true).2

/-- C1: in `fillOrdersAtCurrIdx` the source removes a fully filled resting
order from the active map and inserts it into the done map under the key
`currIdx` (the price-level index), not under the order's id.  At the failing
input — resting offer id 1 at price 7, then a bid for the full size — order
id 1 never enters the done map (key 7 is inserted instead), its active-map
entry survives as a dangling iterator, and `order_status(1)` dereferences
that dangling iterator (undefined behaviour) instead of reporting the done
state the claim requires. -/
theorem orderBook_fill_done_key_C1 :
    (bookOffer7.addOrder 7 5 true).1 = (true, 2)
    ∧ lookupA bookCrossed.doneOrderMap 1 = none
    ∧ (lookupA bookCrossed.doneOrderMap 7).isSome = true
    ∧ (lookupA bookCrossed.activeOrderMap 1).isSome = true
    ∧ bookCrossed.getOrderStatus 1 = none
    ∧ (bookCrossed.level 7).orders = [] := by
  decide

/-- C2: removing an empty offer level does advance `lastOfferIdx` to its
`prevIdx`, but on the `prevIdx < 0` path the source assigns `nextIdx` to
`firstBidIdx` instead of `firstOfferIdx` (order_book.cpp line 289).  With a
bid level resting at 3 and the only offer level at 7, cancelling the offer
leaves `firstOfferIdx` stale at 7 and clobbers the bid-side endpoint
`firstBidIdx` from 3 to -1, contradicting both halves of the claim. -/
theorem orderBook_remove_offer_level_C2 :
    bookBid3Offer7.firstBidIdx = 3
    ∧ bookBid3Offer7.lastBidIdx = 3
    ∧ bookBid3Offer7.firstOfferIdx = 7
    ∧ bookBid3Offer7.lastOfferIdx = 7
    ∧ (bookBid3Offer7.cancelOrder 2).map (fun r => r.1.1) = some true
    ∧ (bookBid3Offer7.cancelOrder 2).map
        (fun r => (r.2.firstBidIdx, r.2.lastBidIdx, r.2.firstOfferIdx, r.2.lastOfferIdx))
      = some (-1, 3, 7, -1) := by
  decide

/-- C8: the round trip `add(7, 5, offer); cancel(2)` on a book holding one
bid level at 3 does not restore the book: the add rested without crossing
(id 2 stayed in the active map, the done map stayed empty), yet after the
cancel `firstBidIdx` is -1 where the original book had 3, and
`firstOfferIdx` is left at 7 where the original book had -1 — the level
removal inside the cancel hits the `firstBidIdx`-for-`firstOfferIdx` slip of
`removeOrderLevel`. -/
theorem orderBook_add_cancel_roundtrip_C8 :
    (bookBid3.addOrder 7 5 false).1 = (true, 2)
    ∧ (lookupA bookBid3Offer7.activeOrderMap 2).isSome = true
    ∧ bookBid3Offer7.doneOrderMap = []
    ∧ bookBid3.firstBidIdx = 3
    ∧ bookBid3.firstOfferIdx = -1
    ∧ (bookBid3Offer7.cancelOrder 2).map (fun r => (r.2.firstBidIdx, r.2.firstOfferIdx))
      = some (-1, 7) := by
  decide

/-! ## Claim C3: price-change update -/

/-- Two resting bids: id 1 (size 5 at 3, node tag 0) and id 2 (size 6 at 4,
node tag 1). -/
def bookTwoBids : OrderBook := ((bookEmpty.addOrder 3 5 true).2.addOrder 4 6 true).2

/-- The book after `cancelOrder(1)` inside `update(1, 5, 5)` on
`bookTwoBids`. -/
def bookTwoBidsCancel1 : OrderBook :=
  ((bookTwoBids.cancelOrder 1).map Prod.snd).getD bookTwoBids

/-- The book after the internal re-add `addOrder(5, 5, bid)` (internal id 3,
node tag 2) inside `update(1, 5, 5)` on `bookTwoBids`. -/
def bookTwoBidsReadd : OrderBook := (bookTwoBidsCancel1.addOrder 5 5 true).2

/-- C3, counterexample: order id 2 is an active bid resting at 3;
`update(2, 7, 5)` has a new price, valid parameters and
`new_size > already_filled = 0`, yet the claim fails: the re-add at price 7
crosses the resting offer completely, the new internal order never enters
the active map, and line 137's `activeOrderMap.at(newOrderId)` throws
`std::out_of_range` (modelled by `none`) instead of rebinding the public id. -/
theorem orderBook_update_cross_crash_C3_cex :
    bookOffer7Bid3.getOrderStatus 2 = some (true, ⟨0, none⟩)
    ∧ bookOffer7Bid3.getIsOrderValid 7 5 = true
    ∧ bookOffer7Bid3.updateOrder 2 7 5 = none := by
  decide

/-- C3, amended: for an active order and a price-change update with valid
parameters and `new_size > already_filled`, provided additionally that the
internal re-add leaves a resting remainder (its internal id `nid` is bound in
the active map and absent from the done map), the update succeeds, cancels
the old entry, re-adds at the new price with size `new_size - already_filled`,
and preserves the public id: `orderId` is rebound to the re-added node
`newTag` while lookups under the discarded internal id `nid` fail with the
unknown sentinel. -/
theorem orderBook_update_rebind_C3_amended
    (b : OrderBook) (orderId newPrice newSize : Int) (os : OrderState)
    (tag : Nat) (o : LimitOrder) (r1 : Bool × OrderState) (b1 : OrderBook)
    (ok : Bool) (nid : Int) (b2 : OrderBook) (newTag : Nat)
    (hst : b.getOrderStatus orderId = some (true, os))
    (hvalid : b.getIsOrderValid newPrice newSize = true)
    (hsize : os.filledSize < newSize)
    (htag : lookupA b.activeOrderMap orderId = some tag)
    (ho : b.derefTag tag = some o)
    (hpr : ¬ o.price = newPrice)
    (hcancel : b.cancelOrder orderId = some (r1, b1))
    (hadd : b1.addOrder newPrice (newSize - os.filledSize) (b.getIsBid (o.price / b.incr))
              = ((ok, nid), b2))
    (hrest : lookupA b2.activeOrderMap nid = some newTag)
    (hdone : lookupA b2.doneOrderMap nid = none)
    (hne : orderId ≠ nid) :
    b.updateOrder orderId newPrice newSize
      = some ((true, os),
          { b2 with activeOrderMap := eraseA (insertA b2.activeOrderMap orderId newTag) nid })
    ∧ lookupA (eraseA (insertA b2.activeOrderMap orderId newTag) nid) orderId = some newTag
    ∧ OrderBook.getOrderStatus
        { b2 with activeOrderMap := eraseA (insertA b2.activeOrderMap orderId newTag) nid } nid
      = some (false, ⟨-1, some 0⟩) := by
  refine ⟨?_, ?_, ?_⟩
  · simp [OrderBook.updateOrder, hst, hvalid, htag, ho, hpr, hcancel, hadd, hrest,
      not_le.mpr hsize]
  · rw [lookupA_eraseA_ne _ _ _ hne, lookupA_insertA_self]
  · simp only [OrderBook.getOrderStatus, lookupA_eraseA_self, hdone]

/-- C3, witness: the amended theorem applied to `update(1, 5, 5)` on
`bookTwoBids` (old price 3, new price 5, nothing filled, no crossing). -/
theorem orderBook_update_rebind_C3_witness :
    bookTwoBids.updateOrder 1 5 5
      = some ((true, ⟨0, none⟩),
          { bookTwoBidsReadd with
              activeOrderMap := eraseA (insertA bookTwoBidsReadd.activeOrderMap 1 2) 3 })
    ∧ lookupA (eraseA (insertA bookTwoBidsReadd.activeOrderMap 1 2) 3) 1 = some 2 := by
  have h := orderBook_update_rebind_C3_amended bookTwoBids 1 5 5 ⟨0, none⟩ 0 ⟨3, 5, 5, 0⟩
    (true, ⟨0, none⟩) bookTwoBidsCancel1 true 3 bookTwoBidsReadd 2
    (by decide) (by decide) (by decide) (by decide) (by decide) (by decide)
    rfl rfl (by decide) (by decide) (by decide)
  exact ⟨h.1, h.2.1⟩

/-- C4: `deleteScheduled` returns true iff it removed a pending occurrence
from the queue (the count of pending occurrences of `task_id` drops) or it
removed the task's entry from the repeated mapping; and an id recorded in
the executed set that is not in the repeated mapping always fails. -/
theorem taskScheduler_cancel_iff_C4 (s : SchedState) (id : Int) :
    ((TaskScheduler.deleteScheduled s id).1 = true ↔
      countId (TaskScheduler.deleteScheduled s id).2.taskq id < countId s.taskq id
      ∨ ((lookupA s.repeated_tasks id).isSome = true
         ∧ (lookupA (TaskScheduler.deleteScheduled s id).2.repeated_tasks id).isSome = false))
    ∧ (s.executed_tasks.contains id = true → lookupA s.repeated_tasks id = none →
        (TaskScheduler.deleteScheduled s id).1 = false) := by
  unfold TaskScheduler.deleteScheduled
  by_cases hrun : s.event_loop_running = false
  · rw [if_pos hrun]
    refine ⟨⟨fun h => Bool.noConfusion h, fun h => ?_⟩, fun _ _ => rfl⟩
    rcases h with h | ⟨h1, h2⟩
    · exact absurd h (lt_irrefl _)
    · rw [h1] at h2; exact Bool.noConfusion h2
  · rw [if_neg hrun]
    by_cases hrep : (lookupA s.repeated_tasks id).isSome = true
    · rw [if_pos hrep]
      refine ⟨⟨fun _ => Or.inr ⟨hrep, ?_⟩, fun _ => rfl⟩, fun _ hnone => ?_⟩
      · show (lookupA (eraseA s.repeated_tasks id) id).isSome = false
        rw [lookupA_eraseA_self]; rfl
      · rw [hnone] at hrep; exact Bool.noConfusion hrep
    · rw [if_neg hrep]
      by_cases hex : s.executed_tasks.contains id = true
      · rw [if_pos hex]
        refine ⟨⟨fun h => Bool.noConfusion h, fun h => ?_⟩, fun _ _ => rfl⟩
        rcases h with h | ⟨h1, _⟩
        · exact absurd h (lt_irrefl _)
        · exact absurd h1 hrep
      · rw [if_neg hex]
        cases hfound : (removeFirstTask s.taskq id).1 with
        | false =>
          have hq := removeFirstTask_not_found s.taskq id hfound
          rw [hq]
          refine ⟨⟨fun h => Bool.noConfusion h, fun h => ?_⟩, fun hexec _ => absurd hexec hex⟩
          rcases h with h | ⟨h1, _⟩
          · exact absurd h (lt_irrefl _)
          · exact absurd h1 hrep
        | true =>
          have hc := removeFirstTask_found s.taskq id hfound
          refine ⟨⟨fun _ => Or.inl ?_, fun _ => rfl⟩, fun hexec _ => absurd hexec hex⟩
          show countId (removeFirstTask s.taskq id).2 id < countId s.taskq id
          omega

/-- C4, witness: with the executed set `[5]`, an empty repeated mapping and
a running loop, cancelling task 5 fails. -/
theorem taskScheduler_cancel_iff_C4_witness :
    (TaskScheduler.deleteScheduled ⟨1, [5], [], true, []⟩ 5).1 = false :=
  (taskScheduler_cancel_iff_C4 ⟨1, [5], [], true, []⟩ 5).2 (by decide) rfl

/-- C5: after an instance of task `t` finishes, the re-enqueue step pushes
`(t.task_id, t.start_time + interval, t.running_time)` exactly when
`t.task_id` is still in the repeated mapping at the re-check, and does
nothing otherwise; consequently, after a cancel executed while the instance
was running (the loop held no lock during `t.run()`), the re-check finds no
entry and no further occurrence is enqueued. -/
theorem taskScheduler_repeat_C5 (s : SchedState) (t : STask) :
    (∀ iv : Int, lookupA s.repeated_tasks t.task_id = some iv →
      TaskScheduler.afterTaskRun s t
        = { s with taskq := sortedInsert s.taskq ⟨t.task_id, t.start_time + iv, t.running_time⟩ })
    ∧ (lookupA s.repeated_tasks t.task_id = none → TaskScheduler.afterTaskRun s t = s)
    ∧ (∀ st rt : Int, s.event_loop_running = true →
        TaskScheduler.afterTaskRun (TaskScheduler.deleteScheduled s t.task_id).2 ⟨t.task_id, st, rt⟩
          = (TaskScheduler.deleteScheduled s t.task_id).2) := by
  refine ⟨?_, ?_, ?_⟩
  · intro iv hiv
    simp [TaskScheduler.afterTaskRun, hiv]
  · intro hn
    simp [TaskScheduler.afterTaskRun, hn]
  · intro st rt hrun
    have hkey : lookupA (TaskScheduler.deleteScheduled s t.task_id).2.repeated_tasks t.task_id
        = none := by
      unfold TaskScheduler.deleteScheduled
      rw [if_neg (by simp [hrun])]
      by_cases hrep : (lookupA s.repeated_tasks t.task_id).isSome = true
      · rw [if_pos hrep]
        exact lookupA_eraseA_self _ _
      · have hn : lookupA s.repeated_tasks t.task_id = none := by
          cases hopt : lookupA s.repeated_tasks t.task_id with
          | none => rfl
          | some v => rw [hopt] at hrep; exact absurd rfl hrep
        rw [if_neg hrep]
        by_cases hex : s.executed_tasks.contains t.task_id = true
        · rw [if_pos hex]; exact hn
        · rw [if_neg hex]; exact hn
    simp [TaskScheduler.afterTaskRun, hkey]

/-- C5, witness: a repeating task 1 with interval 500 whose instance started
at 450 is re-enqueued for 950; after cancelling task 1, running an instance
re-enqueues nothing. -/
theorem taskScheduler_repeat_C5_witness :
    TaskScheduler.afterTaskRun ⟨2, [], [(1, 500)], true, [⟨1, 450, 10⟩]⟩ ⟨1, 450, 10⟩
      = { next_task_id := 2, executed_tasks := [], repeated_tasks := [(1, 500)],
          event_loop_running := true,
          taskq := sortedInsert [⟨1, 450, 10⟩] ⟨1, 450 + 500, 10⟩ }
    ∧ TaskScheduler.afterTaskRun
        (TaskScheduler.deleteScheduled ⟨2, [], [(1, 500)], true, [⟨1, 450, 10⟩]⟩ 1).2 ⟨1, 950, 10⟩
      = (TaskScheduler.deleteScheduled ⟨2, [], [(1, 500)], true, [⟨1, 450, 10⟩]⟩ 1).2 := by
  have h := taskScheduler_repeat_C5 ⟨2, [], [(1, 500)], true, [⟨1, 450, 10⟩]⟩ ⟨1, 450, 10⟩
  exact ⟨h.1 500 rfl, h.2.2 950 10 rfl⟩

/-- C6, counterexample: on the active, unfilled order id 1 the update
`update(1, 7, 0)` fails validation (`size 0`), and the operation returns
`(false, current order state {filledSize = 0, averagePrice = NaN})` — not
the sentinel state `{filledSize = -1, averagePrice = 0}` the claim
requires (the book is indeed left unchanged). -/
theorem orderBook_invalid_update_C6_cex :
    bookBid7.getIsOrderValid 7 0 = false
    ∧ bookBid7.updateOrder 1 7 0 = some ((false, ⟨0, none⟩), bookBid7)
    ∧ ((⟨0, none⟩ : OrderState) ≠ ⟨-1, some 0⟩) := by
  decide

/-- C6, amended: an `addOrder` whose parameters fail validation returns
`(false, -1)` with the book unchanged; an `updateOrder` on an active order
whose parameters fail validation or with `new_size ≤ already_filled` returns
`(false, the order's current state)` — not the sentinel — with the book
unchanged; and `cancelOrder`/`updateOrder` on an id that is not active
(unknown or completed) return `(false, looked-up state)` with the book
unchanged. -/
theorem orderBook_failure_no_mutation_C6_amended (b : OrderBook)
    (price orderSize : Int) (isBid : Bool) (orderId newPrice newSize : Int) :
    (b.getIsOrderValid price orderSize = false →
      b.addOrder price orderSize isBid = ((false, -1), b))
    ∧ (∀ os : OrderState, b.getOrderStatus orderId = some (true, os) →
        b.getIsOrderValid newPrice newSize = false ∨ os.filledSize ≥ newSize →
        b.updateOrder orderId newPrice newSize = some ((false, os), b))
    ∧ (∀ os : OrderState, b.getOrderStatus orderId = some (false, os) →
        b.cancelOrder orderId = some ((false, os), b)
        ∧ b.updateOrder orderId newPrice newSize = some ((false, os), b)) := by
  refine ⟨?_, ?_, ?_⟩
  · intro h
    simp [OrderBook.addOrder, h]
  · intro os hst hbad
    rcases hbad with hbad | hbad
    · simp [OrderBook.updateOrder, hst, hbad]
    · simp [OrderBook.updateOrder, hst, hbad]
  · intro os hst
    exact ⟨by simp [OrderBook.cancelOrder, hst], by simp [OrderBook.updateOrder, hst]⟩

/-- C6, witness: the amended theorem at concrete inputs — an invalid add
(price 11 > maxPrice 10) on the fresh book, the invalid update of the
counterexample, and a cancel plus update of the unknown id 99. -/
theorem orderBook_failure_no_mutation_C6_witness :
    bookEmpty.addOrder 11 5 true = ((false, -1), bookEmpty)
    ∧ bookBid7.updateOrder 1 7 0 = some ((false, ⟨0, none⟩), bookBid7)
    ∧ bookBid7.cancelOrder 99 = some ((false, ⟨-1, some 0⟩), bookBid7) := by
  refine ⟨?_, ?_, ?_⟩
  · exact (orderBook_failure_no_mutation_C6_amended bookEmpty 11 5 true 0 0 0).1 (by decide)
  · exact (orderBook_failure_no_mutation_C6_amended bookBid7 0 1 true 1 7 0).2.1 ⟨0, none⟩
      (by decide) (Or.inl (by decide))
  · exact ((orderBook_failure_no_mutation_C6_amended bookBid7 0 1 true 99 7 0).2.2
      ⟨-1, some 0⟩ (by decide)).1

/-- C7, counterexample: order id 1 is active and unfilled
(`filled_size = 0`), and `order_status(1)` reports
`average_price = filledValue / 0` — the NaN of a division by zero (the
source divides unconditionally) — where the claim requires 0. -/
theorem orderBook_status_nan_C7_cex :
    bookBid7.getOrderStatus 1 = some (true, ⟨0, none⟩)
    ∧ ((none : Option ℚ) ≠ some 0) := by
  decide

/-- C7, amended: for an order id whose active-map entry still dereferences
to a live node `o`, `order_status` returns
`(true, {original - remaining, filled_value / filled_size})`, where the
division is NaN — not 0 — when `filled_size = 0`; for an id bound in the
done map it returns the stored state; otherwise it returns the unknown
sentinel `{-1, 0}`.  (An id whose active entry dangles — possible through
the fill-path key bug — is undefined behaviour instead.) -/
theorem orderBook_status_cases_C7_amended (b : OrderBook) (orderId : Int)
    (tag : Nat) (o : LimitOrder) :
    (lookupA b.activeOrderMap orderId = some tag → b.derefTag tag = some o →
      b.getOrderStatus orderId
        = some (true, ⟨o.originalSize - o.remainingSize,
                       divQ o.filledValue (o.originalSize - o.remainingSize)⟩)
      ∧ (o.originalSize - o.remainingSize = 0 →
          (b.getOrderStatus orderId).map (fun r => r.2.averagePrice) = some none))
    ∧ (∀ st : OrderState, lookupA b.activeOrderMap orderId = none →
        lookupA b.doneOrderMap orderId = some st →
        b.getOrderStatus orderId = some (false, st))
    ∧ (lookupA b.activeOrderMap orderId = none → lookupA b.doneOrderMap orderId = none →
        b.getOrderStatus orderId = some (false, ⟨-1, some 0⟩)) := by
  refine ⟨?_, ?_, ?_⟩
  · intro ht ho
    have h1 : b.getOrderStatus orderId
        = some (true, ⟨o.originalSize - o.remainingSize,
                       divQ o.filledValue (o.originalSize - o.remainingSize)⟩) := by
      simp [OrderBook.getOrderStatus, ht, ho]
    refine ⟨h1, fun hz => ?_⟩
    rw [h1]
    simp [hz, divQ]
  · intro st hn hd
    simp [OrderBook.getOrderStatus, hn, hd]
  · intro hn hd
    simp [OrderBook.getOrderStatus, hn, hd]

/-- C7, witness: the amended theorem at concrete inputs — the active
unfilled bid id 1 of `bookBid7` (NaN average), the done order id 2 of
`bookCrossed` (stored state, average 35/5), and the unknown id 99. -/
theorem orderBook_status_cases_C7_witness :
    bookBid7.getOrderStatus 1 = some (true, ⟨5 - 5, divQ 0 (5 - 5)⟩)
    ∧ bookCrossed.getOrderStatus 2 = some (false, ⟨5, divQ 35 5⟩)
    ∧ bookCrossed.getOrderStatus 99 = some (false, ⟨-1, some 0⟩) := by
  refine ⟨?_, ?_, ?_⟩
  · exact ((orderBook_status_cases_C7_amended bookBid7 1 0 ⟨7, 5, 5, 0⟩).1
      (by decide) (by decide)).1
  · exact (orderBook_status_cases_C7_amended bookCrossed 2 0 ⟨0, 0, 0, 0⟩).2.1
      ⟨5, divQ 35 5⟩ (by decide) rfl
  · exact (orderBook_status_cases_C7_amended bookCrossed 99 0 ⟨0, 0, 0, 0⟩).2.2
      (by decide) (by decide)

/-- C9: on a live (shared_ptr-managed) pool with an empty idle queue,
`request` allocates resource `allocCount` (idle count stays 0); releasing it
enqueues it at the tail; a second `request` detaches the head of the
non-empty queue, returning the same resource instance with no new
allocation (`allocCount` unchanged) and idle count 0 again.  The last two
conjuncts state the general facts: a release always appends at the tail,
and a request on a non-empty queue always detaches the head without
touching the allocation counter. -/
theorem resourcePool_recycle_reuse_C9 (p : PoolState)
    (hm : p.managed = true) (he : p.idleQueue = []) :
    ResourcePool.request p = some (p.allocCount, { p with allocCount := p.allocCount + 1 })
    ∧ ResourcePool.recycle { p with allocCount := p.allocCount + 1 } p.allocCount
        = { p with idleQueue := [p.allocCount], allocCount := p.allocCount + 1 }
    ∧ ResourcePool.request { p with idleQueue := [p.allocCount], allocCount := p.allocCount + 1 }
        = some (p.allocCount, { p with idleQueue := [], allocCount := p.allocCount + 1 })
    ∧ (∀ (q : PoolState) (x : Nat), (ResourcePool.recycle q x).idleQueue = q.idleQueue ++ [x])
    ∧ (∀ (q : PoolState) (x : Nat) (rest : List Nat), q.managed = true →
        q.idleQueue = x :: rest →
        ResourcePool.request q = some (x, { q with idleQueue := rest })) := by
  refine ⟨?_, ?_, ?_, ?_, ?_⟩
  · simp [ResourcePool.request, hm, he]
  · simp [ResourcePool.recycle, he]
  · simp [ResourcePool.request, hm]
  · intro q x; rfl
  · intro q x rest hq hqq
    simp [ResourcePool.request, hq, hqq]

/-- C9, witness: the fresh default pool; the recycled resource 0 is handed
out again with no second allocation. -/
theorem resourcePool_recycle_reuse_C9_witness :
    ResourcePool.request ⟨[], 0, true⟩ = some (0, ⟨[], 1, true⟩)
    ∧ ResourcePool.recycle ⟨[], 1, true⟩ 0 = ⟨[0], 1, true⟩
    ∧ ResourcePool.request ⟨[0], 1, true⟩ = some (0, ⟨[], 1, true⟩) := by
  have h := resourcePool_recycle_reuse_C9 ⟨[], 0, true⟩ rfl rfl
  exact ⟨h.1, h.2.1, h.2.2.1⟩

/-- C10: `request` fails (the deleter constructor's
`assert(!p_ptr.expired())` fires) exactly when the pool object is not
currently owned by any `shared_ptr`, regardless of the idle queue. -/
theorem resourcePool_request_liveness_C10 (p : PoolState) :
    ResourcePool.request p = none ↔ p.managed = false := by
  rcases p with ⟨q, a, m⟩
  cases m <;> cases q <;> simp [ResourcePool.request]
